import Mathlib

/-!
Verification of the conversation-context and rate-limiting pipeline of a
Telegram/ChatGPT relay bot.

The development shallowly embeds the relevant source modules:

* `services/rate_limiter.py` — a per-user cooldown gate over a key-value
  store with native expiry (Redis).  The store is modelled as a function
  from keys to optional entries `(value, remaining ttl)`; the redis
  commands used by the source (`ttl`, `setex`) are modelled in
  state-passing style; clock advance (`elapse`) models the store's
  native expiry.
* `database/repository.py` — the message repository over a table of
  `messages` rows.  The table is modelled as a `List Msg` kept in
  ascending `created_at` (insertion) order, as the store assigns
  monotonically non-decreasing creation timestamps; `ORDER BY
  created_at DESC` is therefore list reversal.
* `services/chatgpt.py` — context formatting and the two-tier
  primary/fallback completion loop.  The external completion API is a
  parameter `call : String → Option String` (model name ↦ response
  content on success, `none` when the call raises).  The loop iterates
  a Python *set* literal `{self.model, self.fallback_model}`; set
  iteration order is not specified by the language, so the iteration
  order is an explicit parameter constrained by `setIterOrderB`.
* `handlers/messages.py` — the per-message coordinator
  (`handle_message`) and the conversation-reset callback
  (`handle_new_request`).  Effects visible to the user or to the stores
  are recorded in an event trace.
-/

/-- One entry of the cooldown key-value store: the stored value and its
remaining time-to-live in seconds.  Redis reports TTL `-1` for a key
without expiry; entries written by the rate limiter always carry a
positive TTL. -/
structure RedisEntry where
  value : String
  ttl : Int
  deriving DecidableEq

/-- The cooldown store state: a map from keys to optional entries. -/
abbrev RedisState := String → Option RedisEntry

/-- Embedding of the redis `TTL` command: `-2` for a missing key,
otherwise the entry's remaining time-to-live.  It is a query: the store
comes back unchanged (state-passing style). -/
def RedisState.ttlCmd (s : RedisState) (k : String) : Int × RedisState :=
  (match s k with
   | none => -2
   | some e => e.ttl, s)

/-- Embedding of the redis `SETEX` command: unconditionally overwrite
the key with the given value and time-to-live. -/
def RedisState.setex (s : RedisState) (k : String) (t : Int) (v : String) : RedisState :=
  fun k2 => if k2 = k then some ⟨v, t⟩ else s k2

/-- The store's native expiry: `d` seconds elapse, every entry's
time-to-live decreases and entries reaching zero disappear.  Keys
without expiry (negative reported TTL) persist. -/
def RedisState.elapse (s : RedisState) (d : Nat) : RedisState :=
  fun k =>
    match s k with
    | none => none
    | some e =>
      if e.ttl < 0 then some e
      else if e.ttl ≤ (d : Int) then none
      else some ⟨e.value, e.ttl - (d : Int)⟩

/-- Embedding of `RateLimiter.__init__` (services/rate_limiter.py): key
namespace (the source's `prefix` argument — `prefix` is reserved in
Lean) and the cooldown window in seconds. -/
structure RateLimiter where
  pfx : String
  ttl_seconds : Int
  deriving DecidableEq

/-- Embedding of `RateLimiter._key`: the f-string
`f"{self.prefix}:user:{user_id}"`, the integer user id rendered in
decimal. -/
def RateLimiter.key (rl : RateLimiter) (user_id : Nat) : String :=
  rl.pfx ++ ":user:" ++ Nat.repr user_id

/-- Embedding of `RateLimiter.get_limit_state`: query the remaining TTL
of the user's key; blocked with that TTL when it is strictly positive,
otherwise not blocked with retry-after 0.  (The source also guards
`ttl is not None`, vacuous for the redis client in use: `TTL` always
returns an integer.) -/
def RateLimiter.get_limit_state (rl : RateLimiter) (s : RedisState) (user_id : Nat) :
    (Bool × Int) × RedisState :=
  let r := s.ttlCmd (rl.key user_id)
  if r.1 > 0 then ((true, r.1), r.2) else ((false, 0), r.2)

/-- Embedding of `RateLimiter.touch`: `SETEX` the user's key with the
configured time-to-live and value `"1"`. -/
def RateLimiter.touch (rl : RateLimiter) (s : RedisState) (user_id : Nat) : RedisState :=
  s.setex (rl.key user_id) rl.ttl_seconds "1"

/-- Unfolding lemma for `get_limit_state` in terms of the stored entry
at the user's key. -/
theorem get_limit_state_eq (rl : RateLimiter) (s : RedisState) (u : Nat) :
    rl.get_limit_state s u =
      (match s (rl.key u) with
       | some e => if 0 < e.ttl then ((true, e.ttl), s) else ((false, 0), s)
       | none => ((false, 0), s)) := by
  unfold RateLimiter.get_limit_state RedisState.ttlCmd
  cases s (rl.key u) with
  | none => simp
  | some e => by_cases ht : 0 < e.ttl <;> simp [ht]

/-- Theorem C5: `get_limit_state` reports blocked with the remaining
TTL exactly when the user's cooldown marker exists with remaining TTL
strictly greater than zero; otherwise it reports `(false, 0)`; and it
never mutates the store. -/
theorem get_limit_state_spec (rl : RateLimiter) (s : RedisState) (user_id : Nat) :
    ((rl.get_limit_state s user_id).2 = s)
    ∧ (∀ t : Int, (rl.get_limit_state s user_id).1 = (true, t) ↔
        ∃ e : RedisEntry, s (rl.key user_id) = some e ∧ e.ttl = t ∧ 0 < t)
    ∧ ((¬ ∃ e : RedisEntry, s (rl.key user_id) = some e ∧ 0 < e.ttl) →
        (rl.get_limit_state s user_id).1 = (false, 0)) := by
  cases h : s (rl.key user_id) with
  | none =>
    simp only [get_limit_state_eq, h]
    exact ⟨trivial, fun t => by simp, fun _ => trivial⟩
  | some e =>
    by_cases ht : 0 < e.ttl
    · simp only [get_limit_state_eq, h, if_pos ht]
      refine ⟨trivial, fun t => ?_, fun hn => absurd ⟨e, rfl, ht⟩ hn⟩
      constructor
      · intro heq
        have hte : e.ttl = t := by
          have := congrArg (fun p => p.2) heq
          simpa using this
        exact ⟨e, rfl, hte, hte ▸ ht⟩
      · rintro ⟨e2, he2, hte, htp⟩
        simp only [Option.some.injEq] at he2
        subst he2
        simp [hte]
    · simp only [get_limit_state_eq, h, if_neg ht]
      refine ⟨trivial, fun t => ?_, fun _ => trivial⟩
      constructor
      · intro heq
        exact absurd (congrArg (fun p => p.1) heq) (by simp)
      · rintro ⟨e2, he2, hte, htp⟩
        simp only [Option.some.injEq] at he2
        subst he2
        omega

/-- Witness for C5 at a concrete input: on an empty store the check
reports not blocked with retry-after 0. -/
theorem get_limit_state_spec_witness :
    (¬ ∃ e : RedisEntry, (fun _ => none : RedisState)
        ((RateLimiter.mk "rate_limit:gpt35" 180).key 7) = some e ∧ 0 < e.ttl)
    ∧ ((RateLimiter.mk "rate_limit:gpt35" 180).get_limit_state (fun _ => none) 7).1
        = (false, 0) := by
  refine ⟨by simp, ?_⟩
  exact (get_limit_state_spec (RateLimiter.mk "rate_limit:gpt35" 180) (fun _ => none) 7).2.2
    (by simp)

/-- Theorem C6: `touch` unconditionally (re)creates the user's cooldown
marker with the full configured TTL; calling it again after any elapsed
time again leaves the marker at the full configured TTL — the cooldown
is reset, never stacked. -/
theorem touch_resets_full_ttl (rl : RateLimiter) (s : RedisState) (user_id : Nat) (d : Nat) :
    ((rl.touch s user_id) (rl.key user_id) = some ⟨"1", rl.ttl_seconds⟩)
    ∧ ((rl.touch ((rl.touch s user_id).elapse d) user_id) (rl.key user_id)
        = some ⟨"1", rl.ttl_seconds⟩) := by
  constructor
  · simp [RateLimiter.touch, RedisState.setex]
  · simp [RateLimiter.touch, RedisState.setex]

/-- One row of the `messages` table (database/models.py): surrogate id,
owning user id, request text (non-nullable column), nullable response
text.  The store-assigned `created_at` timestamp is modelled by list
position: the table is a `List Message` in ascending insertion
(creation-time) order. -/
structure Message where
  id : Nat
  user_id : Nat
  message_text : String
  response_text : Option String
  deriving DecidableEq

/-- Embedding of `MessageRepository.get_recent_messages`
(database/repository.py): select the user's rows ordered by
`created_at DESC` (reversal of the chronological table), apply `LIMIT`,
then return them re-reversed into chronological (oldest-first) order. -/
def MessageRepository.get_recent_messages (db : List Message) (user_id : Nat)
    (limit : Nat) : List Message :=
  (((db.filter (fun m => m.user_id == user_id)).reverse).take limit).reverse

/-- Store-assigned fresh surrogate id for a new row. -/
def nextId (db : List Message) : Nat :=
  db.foldr (fun m acc => max (m.id + 1) acc) 0

/-- Embedding of `MessageRepository.create_message`: append a new row
for the user with the given request and optional response text. -/
def MessageRepository.create_message (db : List Message) (user_id : Nat)
    (message_text : String) (response_text : Option String) : List Message :=
  db ++ [⟨nextId db, user_id, message_text, response_text⟩]

/-- Embedding of `MessageRepository.delete_user_messages`: select the
user's rows, count them, then delete each selected row (by primary key)
from the table; returns the count and the resulting table. -/
def MessageRepository.delete_user_messages (db : List Message) (user_id : Nat) :
    Nat × List Message :=
  let msgs := db.filter (fun m => m.user_id == user_id)
  (msgs.length, msgs.foldl (fun acc m => acc.filter (fun x => x.id != m.id)) db)

/-- Role tag of a message fragment sent to the completion API. -/
inductive Role
  | user
  | assistant
  deriving DecidableEq

/-- One role-tagged fragment of the completion request. -/
structure Fragment where
  role : Role
  content : String
  deriving DecidableEq

/-- The per-row body of the loop in
`ChatGPTService.format_context_messages` (services/chatgpt.py): a
user fragment when the request text is truthy (non-empty), then an
assistant fragment when the response text is truthy (present and
non-empty). -/
def messageFragments (m : Message) : List Fragment :=
  (if m.message_text.isEmpty then [] else [⟨Role.user, m.message_text⟩])
    ++ (match m.response_text with
        | some r => if r.isEmpty then [] else [⟨Role.assistant, r⟩]
        | none => [])

/-- Embedding of `ChatGPTService.format_context_messages`: fold the
rows in order, appending each row's fragments. -/
def ChatGPTService.format_context_messages (msgs : List Message) : List Fragment :=
  msgs.flatMap messageFragments

/-- Theorem C3: the context assembler selects exactly `min N L` rows (L
the user's history length), those rows are a suffix of the user's
chronological history (the most recent ones, oldest first); each
selected row contributes its user fragment before its assistant
fragment, a row with an absent response contributes no assistant
fragment, and an empty history yields an empty fragment sequence. -/
theorem context_assembler_spec (db : List Message) (u N : Nat) :
    ((MessageRepository.get_recent_messages db u N).length
        = min N ((db.filter (fun m => m.user_id == u)).length))
    ∧ ((MessageRepository.get_recent_messages db u N)
        <:+ (db.filter (fun m => m.user_id == u)))
    ∧ (ChatGPTService.format_context_messages (MessageRepository.get_recent_messages db u N)
        = (MessageRepository.get_recent_messages db u N).flatMap messageFragments)
    ∧ (∀ m ∈ MessageRepository.get_recent_messages db u N,
        messageFragments m = []
        ∨ (∃ c, messageFragments m = [⟨Role.user, c⟩])
        ∨ (∃ c, messageFragments m = [⟨Role.assistant, c⟩])
        ∨ (∃ c d, messageFragments m = [⟨Role.user, c⟩, ⟨Role.assistant, d⟩]))
    ∧ (∀ m ∈ MessageRepository.get_recent_messages db u N, m.response_text = none →
        ∀ f ∈ messageFragments m, f.role = Role.user)
    ∧ (db.filter (fun m => m.user_id == u) = [] →
        ChatGPTService.format_context_messages
          (MessageRepository.get_recent_messages db u N) = []) := by
  refine ⟨?_, ?_, rfl, ?_, ?_, ?_⟩
  · simp [MessageRepository.get_recent_messages]
  · refine ⟨(((db.filter (fun m => m.user_id == u)).reverse).drop N).reverse, ?_⟩
    rw [MessageRepository.get_recent_messages, ← List.reverse_append,
      List.take_append_drop, List.reverse_reverse]
  · intro m _
    by_cases hm : m.message_text.isEmpty
    · cases hr : m.response_text with
      | none => exact Or.inl (by simp [messageFragments, hm, hr])
      | some r =>
        by_cases hre : r.isEmpty
        · exact Or.inl (by simp [messageFragments, hm, hr, hre])
        · exact Or.inr (Or.inr (Or.inl ⟨r, by simp [messageFragments, hm, hr, hre]⟩))
    · cases hr : m.response_text with
      | none =>
        exact Or.inr (Or.inl ⟨m.message_text, by simp [messageFragments, hm, hr]⟩)
      | some r =>
        by_cases hre : r.isEmpty
        · exact Or.inr (Or.inl ⟨m.message_text, by simp [messageFragments, hm, hr, hre]⟩)
        · exact Or.inr (Or.inr (Or.inr
            ⟨m.message_text, r, by simp [messageFragments, hm, hr, hre]⟩))
  · intro m _ hnone f hf
    simp only [messageFragments, hnone, List.append_nil] at hf
    by_cases hm : m.message_text.isEmpty
    · simp [hm] at hf
    · simp only [hm, if_neg, Bool.false_eq_true, not_false_eq_true, List.mem_singleton] at hf
      simp [hf]
  · intro h
    simp [MessageRepository.get_recent_messages, h, ChatGPTService.format_context_messages]

/-- A small concrete message table used by witnesses: user 7 has two
exchanges, user 8 has one. -/
def sampleDb : List Message :=
  [⟨1, 7, "hi", some "hello"⟩, ⟨2, 8, "spam", none⟩, ⟨3, 7, "how", none⟩]

/-- Witness for C3 at a concrete input: user 7's assembled context
selects both of their exchanges, and the response-less exchange
contributes only user-role fragments. -/
theorem context_assembler_spec_witness :
    ((MessageRepository.get_recent_messages sampleDb 7 5).length = min 5 2)
    ∧ ((⟨3, 7, "how", none⟩ : Message) ∈ MessageRepository.get_recent_messages sampleDb 7 5)
    ∧ (∀ f ∈ messageFragments (⟨3, 7, "how", none⟩ : Message), f.role = Role.user) := by
  refine ⟨?_, by decide, ?_⟩
  · have h := (context_assembler_spec sampleDb 7 5).1
    simpa using h
  · exact (context_assembler_spec sampleDb 7 5).2.2.2.2.1 ⟨3, 7, "how", none⟩ (by decide) rfl

/-- Deleting each member of `ms` (by primary key) from the table `db`
keeps exactly the rows whose id differs from every member of `ms`. -/
theorem foldl_delete_eq (ms : List Message) (db : List Message) :
    ms.foldl (fun acc m => acc.filter (fun x => x.id != m.id)) db
      = db.filter (fun x => ms.all (fun m => x.id != m.id)) := by
  induction ms generalizing db with
  | nil => simp
  | cons m ms ih =>
    rw [List.foldl_cons, ih, List.filter_filter]
    apply List.filter_congr
    intro x _
    simp [Bool.and_comm]

/-- Embedding of the reply of `handle_new_request`
(handlers/messages.py): the confirmation either reports the number of
removed rows or says the history was already empty. -/
inductive ResetNotice
  | cleared (deleted_count : Nat)
  | historyWasEmpty
  deriving DecidableEq

/-- Embedding of `handle_new_request`: delete all of the caller's rows
and confirm, reporting the count when it is positive. -/
def handle_new_request (user_id : Nat) (db : List Message) : List Message × ResetNotice :=
  let r := MessageRepository.delete_user_messages db user_id
  (r.2, if r.1 > 0 then ResetNotice.cleared r.1 else ResetNotice.historyWasEmpty)

/-- Theorem C9: under the primary-key invariant (row ids are distinct),
conversation reset returns as count exactly the number of the
requesting user's rows, the resulting table is the original one with
exactly that user's rows removed — every other user's rows survive
unchanged — and the notice reports the count (or emptiness) to the
user. -/
theorem conversation_reset_spec (db : List Message) (u : Nat)
    (hids : (db.map Message.id).Nodup) :
    ((MessageRepository.delete_user_messages db u).1
        = (db.filter (fun m => m.user_id == u)).length)
    ∧ ((MessageRepository.delete_user_messages db u).2
        = db.filter (fun m => m.user_id != u))
    ∧ ((MessageRepository.delete_user_messages db u).2.filter (fun m => m.user_id == u) = [])
    ∧ (∀ v, v ≠ u →
        (MessageRepository.delete_user_messages db u).2.filter (fun m => m.user_id == v)
          = db.filter (fun m => m.user_id == v))
    ∧ ((handle_new_request u db).2
        = if (db.filter (fun m => m.user_id == u)).length > 0
          then ResetNotice.cleared (db.filter (fun m => m.user_id == u)).length
          else ResetNotice.historyWasEmpty) := by
  have hdel : (MessageRepository.delete_user_messages db u).2
      = db.filter (fun m => m.user_id != u) := by
    show (db.filter (fun m => m.user_id == u)).foldl
        (fun acc m => acc.filter (fun x => x.id != m.id)) db
      = db.filter (fun m => m.user_id != u)
    rw [foldl_delete_eq]
    apply List.filter_congr
    intro x hx
    by_cases hu : x.user_id = u
    · have hxmem : x ∈ db.filter (fun m => m.user_id == u) := by
        simp [List.mem_filter, hx, hu]
      have : ¬ ((db.filter (fun m => m.user_id == u)).all (fun m => x.id != m.id) = true) := by
        intro hall
        have := List.all_eq_true.mp hall x hxmem
        simp at this
      simp only [hu, bne_self_eq_false]
      exact Bool.eq_false_iff.mpr (by simpa using this)
    · have : (db.filter (fun m => m.user_id == u)).all (fun m => x.id != m.id) = true := by
        apply List.all_eq_true.mpr
        intro m hm
        have hmdb : m ∈ db := (List.mem_filter.mp hm).1
        have hmu : m.user_id = u := by
          have := (List.mem_filter.mp hm).2
          simpa using this
        have hne : x.id ≠ m.id := by
          intro hid
          have hxm : x = m := List.inj_on_of_nodup_map hids hx hmdb hid
          exact hu (hxm ▸ hmu)
        simpa using hne
      simp [this, bne_iff_ne, hu]
  refine ⟨rfl, hdel, ?_, ?_, rfl⟩
  · rw [hdel, List.filter_filter]
    apply List.filter_eq_nil_iff.mpr
    intro m _
    simp
  · intro v hv
    rw [hdel, List.filter_filter]
    apply List.filter_congr
    intro x _
    by_cases hxv : x.user_id = v
    · simp [hxv, bne_iff_ne, hv]
    · simp [hxv]

/-- Witness for C9 at a concrete input: resetting user 7 on the sample
table removes both of their rows, keeps user 8's row, and reports count
2. -/
theorem conversation_reset_spec_witness :
    ((sampleDb.map Message.id).Nodup)
    ∧ ((MessageRepository.delete_user_messages sampleDb 7).1 = 2)
    ∧ ((MessageRepository.delete_user_messages sampleDb 7).2.filter
        (fun m => m.user_id == 8) = sampleDb.filter (fun m => m.user_id == 8)) := by
  refine ⟨by decide, ?_, ?_⟩
  · have h := (conversation_reset_spec sampleDb 7 (by decide)).1
    simpa using h
  · exact (conversation_reset_spec sampleDb 7 (by decide)).2.2.2.1 8 (by decide)

/-- The configuration fields consumed by the embedded core
(config.py): the completion model name, the free-tier flag, and the
context window bound.  The remaining fields (credentials, database and
redis connection parameters) do not influence the verified logic. -/
structure Config where
  openai_model : String
  free_version_gpt : Bool
  max_context_messages : Nat
  deriving DecidableEq

/-- The mutable model state of `ChatGPTService` (services/chatgpt.py):
the current primary model and the fixed fallback model. -/
structure ChatGPTService where
  model : String
  fallback_model : String
  deriving DecidableEq

/-- Embedding of `ChatGPTService.__init__` (services/chatgpt.py): the
primary model is `config.openai_model or "gpt-4o-mini"` (Python `or`:
the default applies when the configured name is falsy, i.e. empty); the
fallback model is fixed to `"gpt-4o-mini"`. -/
def ChatGPTService.init (config : Config) : ChatGPTService :=
  ⟨if config.openai_model.isEmpty then "gpt-4o-mini" else config.openai_model,
   "gpt-4o-mini"⟩

/-- Recognizer of the iteration orders a Python set literal `{a, b}`
may produce: exactly the distinct elements, in either order — CPython
does not specify (and, under hash randomization, does not fix) which of
the two elements is visited first. -/
def setIterOrderB (a b : String) (order : List String) : Bool :=
  if a = b then order == [a] else (order == [a, b] || order == [b, a])

/-- Embedding of the attempt loop of `ChatGPTService.generate_response`
over a given iteration order: try each model in turn with the external
`call`; on the first success return the trimmed response text together
with the model that produced it; record the models actually attempted.
Mirrors `for model_name in {self.model, self.fallback_model}` with its
`try`/`except`/`continue` body and `return content.strip()`. -/
def runAttempts (call : String → Option String) :
    List String → List String × Option (String × String)
  | [] => ([], none)
  | m :: rest =>
    match call m with
    | some content => ([m], some (content.trim, m))
    | none =>
      let r := runAttempts call rest
      (m :: r.1, r.2)

/-- Embedding of `ChatGPTService.generate_response`: run the attempt
loop; on success remember the successful model as the new primary (the
source's `self.model = model_name`) and return the trimmed text; when
every attempt fails the source raises (`none` here). -/
def ChatGPTService.generate_response (svc : ChatGPTService)
    (call : String → Option String) (order : List String) :
    Option (String × ChatGPTService) :=
  match (runAttempts call order).2 with
  | some p => some (p.1, { svc with model := p.2 })
  | none => none

/-- Theorem C8: when the primary and fallback models are configured
identically, the set literal admits only the singleton iteration order,
and the attempt loop issues exactly one external call — whether that
call succeeds or fails. -/
theorem single_attempt_when_models_equal (svc : ChatGPTService)
    (call : String → Option String) (order : List String)
    (heq : svc.fallback_model = svc.model)
    (ho : setIterOrderB svc.model svc.fallback_model order = true) :
    (order = [svc.model]) ∧ ((runAttempts call order).1 = [svc.model]) := by
  have horder : order = [svc.model] := by
    unfold setIterOrderB at ho
    rw [if_pos heq.symm] at ho
    simpa using ho
  refine ⟨horder, ?_⟩
  subst horder
  cases hc : call svc.model <;> simp [runAttempts, hc]

/-- Witness for C8 at a concrete input: with both models configured as
`gpt-4o-mini` and a failing external call, exactly one attempt is
made. -/
theorem single_attempt_when_models_equal_witness :
    ((ChatGPTService.mk "gpt-4o-mini" "gpt-4o-mini").fallback_model
        = (ChatGPTService.mk "gpt-4o-mini" "gpt-4o-mini").model)
    ∧ ((runAttempts (fun _ => none) ["gpt-4o-mini"]).1 = ["gpt-4o-mini"]) :=
  ⟨rfl, (single_attempt_when_models_equal (ChatGPTService.mk "gpt-4o-mini" "gpt-4o-mini")
      (fun _ => none) ["gpt-4o-mini"] rfl (by decide)).2⟩

/-- An external completion service on which both the legacy primary
model and the fallback model succeed, with distinguishable outputs. -/
def callBothModels : String → Option String :=
  fun m =>
    if m = "gpt-3.5-turbo" then some "primary answer"
    else if m = "gpt-4o-mini" then some "fallback answer"
    else none

/-- Theorem C2 (bug exhibit): with primary `gpt-3.5-turbo` and fallback
`gpt-4o-mini`, the fallback-first order is an admissible iteration of
the set literal `{self.model, self.fallback_model}`; under it the loop
attempts the fallback model first and — although the primary model is
healthy — returns the fallback's output and rebinds the primary model
to the fallback.  The source's own comment promises the primary model
is tried first, which this run violates. -/
theorem set_iteration_order_bug :
    (setIterOrderB "gpt-3.5-turbo" "gpt-4o-mini" ["gpt-4o-mini", "gpt-3.5-turbo"] = true)
    ∧ ((runAttempts callBothModels ["gpt-4o-mini", "gpt-3.5-turbo"]).1 = ["gpt-4o-mini"])
    ∧ (callBothModels "gpt-3.5-turbo" = some "primary answer")
    ∧ (ChatGPTService.generate_response (ChatGPTService.mk "gpt-3.5-turbo" "gpt-4o-mini")
        callBothModels ["gpt-4o-mini", "gpt-3.5-turbo"]
        = some ("fallback answer".trim, ChatGPTService.mk "gpt-4o-mini" "gpt-4o-mini")) := by
  refine ⟨by decide, ?_, rfl, ?_⟩
  · simp [runAttempts, callBothModels]
  · simp [ChatGPTService.generate_response, runAttempts, callBothModels]

/-- Numeric value of a decimal digit character. -/
def decDigit (c : Char) : Nat := c.toNat - 48

/-- Numeric value of a most-significant-digit-first character string. -/
def decVal (ds : List Char) : Nat := ds.foldl (fun a c => a * 10 + decDigit c) 0

/-- A digit character decodes back to the digit it renders. -/
theorem decDigit_digitChar {m : Nat} (hm : m < 10) : decDigit (Nat.digitChar m) = m := by
  interval_cases m <;> decide

/-- Appending one digit multiplies the decoded value by ten and adds
the digit. -/
theorem decVal_append_singleton (l : List Char) (c : Char) :
    decVal (l ++ [c]) = decVal l * 10 + decDigit c := by
  simp [decVal, List.foldl_append]

/-- The core rendering loop of `Nat.repr`, with enough fuel, prepends
to the accumulator a digit string that decodes to its input. -/
theorem toDigitsCore_decVal (fuel : Nat) :
    ∀ (n : Nat) (acc : List Char), n < fuel →
      ∃ ds : List Char, Nat.toDigitsCore 10 fuel n acc = ds ++ acc ∧ decVal ds = n := by
  induction fuel with
  | zero => exact fun n acc h => absurd h (Nat.not_lt_zero n)
  | succ fuel ih =>
    intro n acc hn
    have hstep : Nat.toDigitsCore 10 (fuel + 1) n acc
        = if n / 10 = 0 then Nat.digitChar (n % 10) :: acc
          else Nat.toDigitsCore 10 fuel (n / 10) (Nat.digitChar (n % 10) :: acc) := rfl
    by_cases h10 : n / 10 = 0
    · refine ⟨[Nat.digitChar (n % 10)], ?_, ?_⟩
      · rw [hstep, if_pos h10]
        rfl
      · have hm : n % 10 < 10 := by omega
        simp [decVal, decDigit_digitChar hm]
        omega
    · have hfuel : n / 10 < fuel := by omega
      obtain ⟨ds, hds, hval⟩ := ih (n / 10) (Nat.digitChar (n % 10) :: acc) hfuel
      refine ⟨ds ++ [Nat.digitChar (n % 10)], ?_, ?_⟩
      · rw [hstep, if_neg h10, hds, List.append_assoc]
        rfl
      · have hm : n % 10 < 10 := by omega
        rw [decVal_append_singleton, hval, decDigit_digitChar hm]
        omega

/-- The decimal rendering of a natural number decodes back to it. -/
theorem decVal_toDigits (n : Nat) : decVal (Nat.toDigits 10 n) = n := by
  obtain ⟨ds, hds, hval⟩ := toDigitsCore_decVal (n + 1) n [] (Nat.lt_succ_self n)
  unfold Nat.toDigits
  rw [hds, List.append_nil]
  exact hval

/-- Two natural numbers with the same decimal rendering are equal. -/
theorem natRepr_inj {a b : Nat} (h : (Nat.repr a).data = (Nat.repr b).data) : a = b := by
  have hd : Nat.toDigits 10 a = Nat.toDigits 10 b := by
    simpa [Nat.repr, List.asString] using h
  calc a = decVal (Nat.toDigits 10 a) := (decVal_toDigits a).symm
    _ = decVal (Nat.toDigits 10 b) := by rw [hd]
    _ = b := decVal_toDigits b

/-- Theorem C10: distinct user ids derive distinct store keys, and
committing the gate for one user leaves the check result of any other
user unchanged. -/
theorem rate_limiter_user_isolation (rl : RateLimiter) (s : RedisState) (u v : Nat)
    (huv : u ≠ v) :
    (rl.key u ≠ rl.key v)
    ∧ ((rl.get_limit_state (rl.touch s u) v).1 = (rl.get_limit_state s v).1) := by
  have hkey : rl.key u ≠ rl.key v := by
    intro h
    apply huv
    apply natRepr_inj
    have hdata := congrArg String.data h
    simp only [RateLimiter.key, String.data_append, List.append_assoc] at hdata
    exact List.append_cancel_left (List.append_cancel_left hdata)
  refine ⟨hkey, ?_⟩
  have hvu : rl.key v ≠ rl.key u := fun hh => hkey hh.symm
  have hstore : (rl.touch s u) (rl.key v) = s (rl.key v) := by
    simp [RateLimiter.touch, RedisState.setex, hvu]
  rw [get_limit_state_eq, get_limit_state_eq, hstore]
  cases s (rl.key v) with
  | none => rfl
  | some e => by_cases ht : 0 < e.ttl <;> simp [ht]

/-- Witness for C10 at a concrete input: users 1 and 2 of the gpt-3.5
limiter get distinct store keys. -/
theorem rate_limiter_user_isolation_witness :
    ((1 : Nat) ≠ 2)
    ∧ ((RateLimiter.mk "rate_limit:gpt35" 180).key 1
        ≠ (RateLimiter.mk "rate_limit:gpt35" 180).key 2) :=
  ⟨by decide,
   (rate_limiter_user_isolation (RateLimiter.mk "rate_limit:gpt35" 180)
      (fun _ => none) 1 2 (by decide)).1⟩

/-- Environment flags for the effectful collaborators of
`handle_message`: whether the cooldown store is reachable at gate-check
time and at commit time (an unreachable store raises
`RedisConnectionError` there), and whether persisting the exchange
succeeds (a failing write raises into the generic handler). -/
structure Env where
  redisUpAtCheck : Bool
  redisUpAtTouch : Bool
  persistOk : Bool
  deriving DecidableEq

/-- User-visible and store-visible steps of one `handle_message` run,
recorded in order of occurrence. -/
inductive Event
  | gateChecked
  | rateLimitNotice
  | typing
  | completionSucceeded
  | completionFailed
  | persisted
  | gateCommitted
  | answered
  | errorNotice
  | nonTextNotice
  deriving DecidableEq

/-- The shared stores `handle_message` acts on: the message table and
the cooldown store. -/
structure BotState where
  db : List Message
  redis : RedisState

/-- The rate limiter constructed by `handle_message`:
`RateLimiter(redis, prefix="rate_limit:gpt35", ttl_seconds=180)`. -/
def gpt35Limiter : RateLimiter := ⟨"rate_limit:gpt35", 180⟩

/-- The free-tier gating condition of `handle_message`:
`config.free_version_gpt and config.openai_model == "gpt-3.5-turbo"`. -/
def gatingActive (config : Config) : Bool :=
  config.free_version_gpt && (config.openai_model == "gpt-3.5-turbo")

/-- Embedding of `handle_message` (handlers/messages.py).  A non-text
update is answered with a notice.  Under free-tier gating the limiter
is consulted first — read-only — and a blocked user only gets the
rate-limit notice; a `RedisConnectionError` during that check is caught
and leaves the limiter unset (fail-open).  Then the typing indicator is
sent, recent context is loaded and formatted, and the completion client
is invoked; on success the exchange is persisted, the gate is committed
(only when the limiter was set and gating is active, a commit-time
store failure being swallowed) and the response is sent; any raise from
the completion or the persistence step is answered with an error
notice, with nothing persisted and no commit. -/
def handle_message (env : Env) (config : Config) (uid : Nat) (text? : Option String)
    (call : String → Option String) (order : List String) (st : BotState) :
    BotState × List Event :=
  match text? with
  | none => (st, [Event.nonTextNotice])
  | some text =>
    let gate : Bool × List Event × Bool :=
      if gatingActive config then
        if env.redisUpAtCheck then
          if (gpt35Limiter.get_limit_state st.redis uid).1.1 then
            (false, [Event.gateChecked, Event.rateLimitNotice], true)
          else (true, [Event.gateChecked], false)
        else (false, [], false)
      else (false, [], false)
    if gate.2.2 then (st, gate.2.1)
    else
      let limiterSet := gate.1
      let evs := gate.2.1 ++ [Event.typing]
      let svc := ChatGPTService.init config
      let recent := MessageRepository.get_recent_messages st.db uid config.max_context_messages
      let _contextMsgs := ChatGPTService.format_context_messages recent
      match svc.generate_response call order with
      | some rp =>
        if env.persistOk then
          let db2 := MessageRepository.create_message st.db uid text (some rp.1)
          let commit : RedisState × List Event :=
            if limiterSet && gatingActive config then
              if env.redisUpAtTouch then
                (gpt35Limiter.touch st.redis uid, [Event.gateCommitted])
              else (st.redis, [])
            else (st.redis, [])
          (⟨db2, commit.1⟩,
            evs ++ [Event.completionSucceeded, Event.persisted]
              ++ commit.2 ++ [Event.answered])
        else (st, evs ++ [Event.completionSucceeded, Event.errorNotice])
      | none => (st, evs ++ [Event.completionFailed, Event.errorNotice])

/-- A gate commit happens in exactly one situation: gating is active,
the store was reachable at check time, the user was not blocked, the
completion loop succeeded, persistence succeeded, and the store was
still reachable at commit time. -/
theorem gateCommitted_mem_iff (env : Env) (config : Config) (uid : Nat) (text : String)
    (call : String → Option String) (order : List String) (st : BotState) :
    (Event.gateCommitted ∈ (handle_message env config uid (some text) call order st).2)
      ↔ (gatingActive config = true ∧ env.redisUpAtCheck = true
         ∧ (gpt35Limiter.get_limit_state st.redis uid).1.1 = false
         ∧ (∃ p, (runAttempts call order).2 = some p)
         ∧ env.persistOk = true ∧ env.redisUpAtTouch = true) := by
  by_cases hg : gatingActive config = true <;>
    by_cases hup : env.redisUpAtCheck = true <;>
      by_cases hlim : (gpt35Limiter.get_limit_state st.redis uid).1.1 = true <;>
        cases hrun : (runAttempts call order).2 <;>
          by_cases hp : env.persistOk = true <;>
            by_cases htc : env.redisUpAtTouch = true <;>
              simp [handle_message, ChatGPTService.generate_response,
                hg, hup, hlim, hrun, hp, htc]

/-- Theorem C1: a gate commit can only appear in the trace immediately
after a successful completion and a persisted exchange; and whenever
the completion loop fails on every model, the stores are left
untouched (no exchange persisted, no commit) and — unless the turn
already ended with a rate-limit notice — the user receives an error
notice. -/
theorem gate_commit_only_after_success (env : Env) (config : Config) (uid : Nat)
    (text : String) (call : String → Option String) (order : List String) (st : BotState) :
    ((Event.gateCommitted ∈ (handle_message env config uid (some text) call order st).2) →
      ∃ l1 l2 : List Event,
        (handle_message env config uid (some text) call order st).2
          = l1 ++ [Event.completionSucceeded, Event.persisted, Event.gateCommitted] ++ l2)
    ∧ ((runAttempts call order).2 = none →
        ((handle_message env config uid (some text) call order st).1 = st
         ∧ Event.gateCommitted ∉ (handle_message env config uid (some text) call order st).2
         ∧ Event.persisted ∉ (handle_message env config uid (some text) call order st).2
         ∧ (Event.rateLimitNotice ∉ (handle_message env config uid (some text) call order st).2 →
             Event.errorNotice ∈ (handle_message env config uid (some text) call order st).2))) := by
  constructor
  · intro hmem
    obtain ⟨hg, hup, hlim, ⟨p, hrun⟩, hp, htc⟩ :=
      (gateCommitted_mem_iff env config uid text call order st).mp hmem
    refine ⟨[Event.gateChecked, Event.typing], [Event.answered], ?_⟩
    simp [handle_message, ChatGPTService.generate_response, hg, hup, hlim, hrun, hp, htc]
  · intro hrun
    by_cases hg : gatingActive config = true <;>
      by_cases hup : env.redisUpAtCheck = true <;>
        by_cases hlim : (gpt35Limiter.get_limit_state st.redis uid).1.1 = true <;>
          simp [handle_message, ChatGPTService.generate_response, hg, hup, hlim, hrun]

/-- Theorem C7: with the cooldown store reachable, the gate is checked
if and only if the free-tier flag is set and the configured model is
exactly the legacy name `gpt-3.5-turbo`; under any other configuration
both the check and the commit are bypassed — no rate-limit notice, no
commit, the cooldown store untouched — while the message is still
processed (the typing indicator is reached). -/
theorem gating_iff_free_and_legacy_model (env : Env) (config : Config) (uid : Nat)
    (text : String) (call : String → Option String) (order : List String) (st : BotState)
    (hup : env.redisUpAtCheck = true) :
    ((Event.gateChecked ∈ (handle_message env config uid (some text) call order st).2)
      ↔ (config.free_version_gpt = true ∧ config.openai_model = "gpt-3.5-turbo"))
    ∧ (¬(config.free_version_gpt = true ∧ config.openai_model = "gpt-3.5-turbo") →
        (Event.rateLimitNotice ∉ (handle_message env config uid (some text) call order st).2
         ∧ Event.gateCommitted ∉ (handle_message env config uid (some text) call order st).2
         ∧ (handle_message env config uid (some text) call order st).1.redis = st.redis
         ∧ Event.typing ∈ (handle_message env config uid (some text) call order st).2)) := by
  have hgiff : gatingActive config = true
      ↔ (config.free_version_gpt = true ∧ config.openai_model = "gpt-3.5-turbo") := by
    simp [gatingActive]
  constructor
  · rw [← hgiff]
    by_cases hg : gatingActive config = true <;>
      by_cases hlim : (gpt35Limiter.get_limit_state st.redis uid).1.1 = true <;>
        cases hrun : (runAttempts call order).2 <;>
          by_cases hp : env.persistOk = true <;>
            by_cases htc : env.redisUpAtTouch = true <;>
              simp [handle_message, ChatGPTService.generate_response,
                hg, hup, hlim, hrun, hp, htc]
  · rw [← hgiff]
    intro hng
    have hg : gatingActive config = false := by
      cases hgv : gatingActive config
      · rfl
      · exact absurd hgv hng
    cases hrun : (runAttempts call order).2 <;>
      by_cases hp : env.persistOk = true <;>
        simp [handle_message, ChatGPTService.generate_response, hg, hrun, hp]

/-- Theorem C4: when the cooldown store is unreachable at gate-check
time, the turn proceeds exactly as if free-tier gating were disabled —
the user is treated as unblocked, no rate-limit notice and no commit
occur, the cooldown store is left untouched, and the store failure is
never surfaced as a user-visible error. -/
theorem gate_fail_open (env : Env) (config : Config) (uid : Nat) (text? : Option String)
    (call : String → Option String) (order : List String) (st : BotState)
    (hdown : env.redisUpAtCheck = false) :
    ((handle_message env config uid text? call order st)
      = (handle_message env { config with free_version_gpt := false } uid text? call order st))
    ∧ Event.rateLimitNotice ∉ (handle_message env config uid text? call order st).2
    ∧ Event.gateChecked ∉ (handle_message env config uid text? call order st).2
    ∧ Event.gateCommitted ∉ (handle_message env config uid text? call order st).2
    ∧ (handle_message env config uid text? call order st).1.redis = st.redis := by
  have hg2 : gatingActive { config with free_version_gpt := false } = false := by
    simp [gatingActive]
  cases text? with
  | none => simp [handle_message]
  | some text =>
    by_cases hg : gatingActive config = true <;>
      cases hrun : (runAttempts call order).2 <;>
        by_cases hp : env.persistOk = true <;>
          simp [handle_message, ChatGPTService.generate_response, ChatGPTService.init,
            hdown, hg, hg2, hrun, hp]

/-- All collaborators healthy: store reachable at check and commit
time, persistence succeeding. -/
def envAllUp : Env := ⟨true, true, true⟩

/-- The cooldown store unreachable at gate-check time. -/
def envStoreDown : Env := ⟨false, true, true⟩

/-- The free-tier configuration: legacy model with gating enabled. -/
def freeTierConfig : Config := ⟨"gpt-3.5-turbo", true, 5⟩

/-- Fresh shared stores: no history, empty cooldown store. -/
def emptyBotState : BotState := ⟨[], fun _ => none⟩

/-- Witness for C1 at a concrete input: with every model call failing,
the handler leaves the stores untouched. -/
theorem gate_commit_only_after_success_witness :
    ((runAttempts (fun _ => none) ["gpt-3.5-turbo", "gpt-4o-mini"]).2 = none)
    ∧ ((handle_message envAllUp freeTierConfig 7 (some "hi")
          (fun _ => none) ["gpt-3.5-turbo", "gpt-4o-mini"] emptyBotState).1
        = emptyBotState) :=
  ⟨rfl, ((gate_commit_only_after_success envAllUp freeTierConfig 7 "hi" (fun _ => none)
      ["gpt-3.5-turbo", "gpt-4o-mini"] emptyBotState).2 rfl).1⟩

/-- Witness for C7 at a concrete input: under the free-tier
configuration with the store reachable, the gate is checked. -/
theorem gating_iff_free_and_legacy_model_witness :
    (envAllUp.redisUpAtCheck = true)
    ∧ (Event.gateChecked ∈ (handle_message envAllUp freeTierConfig 7 (some "hi")
        (fun _ => none) ["gpt-3.5-turbo", "gpt-4o-mini"] emptyBotState).2) :=
  ⟨rfl, (gating_iff_free_and_legacy_model envAllUp freeTierConfig 7 "hi" (fun _ => none)
      ["gpt-3.5-turbo", "gpt-4o-mini"] emptyBotState rfl).1.mpr ⟨rfl, rfl⟩⟩

/-- Witness for C4 at a concrete input: with the store down at check
time, no rate-limit notice is emitted. -/
theorem gate_fail_open_witness :
    (envStoreDown.redisUpAtCheck = false)
    ∧ (Event.rateLimitNotice ∉ (handle_message envStoreDown freeTierConfig 7 (some "hi")
        (fun _ => none) ["gpt-3.5-turbo", "gpt-4o-mini"] emptyBotState).2) :=
  ⟨rfl, (gate_fail_open envStoreDown freeTierConfig 7 (some "hi") (fun _ => none)
      ["gpt-3.5-turbo", "gpt-4o-mini"] emptyBotState rfl).2.1⟩
